import Mathlib

/-!
Shallow embedding of the deer-flow tool layer (Patsnap, Semantic Scholar,
PatentsView wrappers and the crawl tool).  Python exceptions are modelled as
`Except PyErr`, mutable instance state is passed explicitly, HTTP calls are
inputs describing the upstream outcome, and Python string slicing `s[:n]`
is `pyTruncate`.
-/

deriving instance DecidableEq for Except

/-- Python exception values, carrying the text `str(e)` would render. -/
inductive PyErr where
  | exc (msg : String)
  | keyError (key : String)
  | httpError (code : Nat) (msg : String)
deriving DecidableEq

/-- Python `str(e)`: a `KeyError` renders as the quoted key. -/
def PyErr.str : PyErr → String
  | .exc m => m
  | .keyError k => "'" ++ k ++ "'"
  | .httpError _ m => m

/-- Python `repr(e)` as used by `crawl_tool`. -/
def PyErr.reprStr : PyErr → String
  | .exc m => "Exception('" ++ m ++ "')"
  | .keyError k => "KeyError('" ++ k ++ "')"
  | .httpError _ m => "HTTPError('" ++ m ++ "')"

/-- A Python dict of already-rendered string values (insertion ordered). -/
abbrev Record := List (String × String)

/-- Python `d.get(k)`: first binding of `k`, if any. -/
def Record.lookupKey (r : Record) (k : String) : Option String :=
  (r.find? (fun kv => kv.1 == k)).map (·.2)

/-- Python `d[k]`: raises `KeyError` when the key is absent. -/
def Record.item (r : Record) (k : String) : Except PyErr String :=
  match r.lookupKey k with
  | some v => .ok v
  | none => .error (.keyError k)

/-- Rendering of `d.get(k)` inside an f-string: a missing key shows as `None`. -/
def Record.getRendered (r : Record) (k : String) : String :=
  (r.lookupKey k).getD "None"

/-- Python `p.update(d)`: keys of `d` override in place, new keys append. -/
def Record.update (p d : Record) : Record :=
  (p.map fun kv => (kv.1, ((d.find? (fun kv2 => kv2.1 == kv.1)).map (·.2)).getD kv.2))
    ++ d.filter (fun kv => !(p.any (fun kv2 => kv2.1 == kv.1)))

/-- Python string slice `s[:n]` for a non-negative bound. -/
def pyTruncate (s : String) (n : Nat) : String :=
  String.mk (s.data.take n)

/-- Python `needle in hay` for strings. -/
def substrOf (needle hay : String) : Prop :=
  needle.data <:+: hay.data

instance (needle hay : String) : Decidable (substrOf needle hay) :=
  inferInstanceAs (Decidable (needle.data <:+: hay.data))

/-- Falsiness of a Python string-or-None value (`not x`). -/
def strFalsy : Option String → Bool
  | none => true
  | some s => s.isEmpty

/-- Truthiness of a Python float-or-None value (`x and ...`). -/
def timeTruthy : Option ℚ → Bool
  | none => false
  | some e => decide (e ≠ 0)

/-- Lowercase hexadecimal digit, as Python's json encoder emits. -/
def hexDigitChar (n : Nat) : Char :=
  if n < 10 then Char.ofNat (48 + n) else Char.ofNat (97 + (n - 10))

/-- A `\uXXXX` escape for a code unit. -/
def uEscape (n : Nat) : String :=
  "\\u" ++ String.mk [hexDigitChar (n / 4096 % 16), hexDigitChar (n / 256 % 16),
    hexDigitChar (n / 16 % 16), hexDigitChar (n % 16)]

/-- Escaping of one character by Python `json.dumps` (default `ensure_ascii=True`). -/
def jsonEscapeChar (c : Char) : String :=
  if c = '"' then "\\\""
  else if c = '\\' then "\\\\"
  else if c = '\n' then "\\n"
  else if c = '\r' then "\\r"
  else if c = '\t' then "\\t"
  else if c = '\x08' then "\\b"
  else if c = '\x0c' then "\\f"
  else if c.toNat < 32 then uEscape c.toNat
  else if c.toNat < 127 then String.singleton c
  else if c.toNat ≤ 65535 then uEscape c.toNat
  else uEscape (55296 + (c.toNat - 65536) / 1024) ++ uEscape (56320 + (c.toNat - 65536) % 1024)

/-- Python `json.dumps` escaping of a whole string. -/
def jsonEscape (s : String) : String :=
  String.mk (s.data.flatMap (fun c => (jsonEscapeChar c).data))

/-- Characters that `json.dumps` copies through unchanged. -/
def jsonPlain (c : Char) : Prop :=
  32 ≤ c.toNat ∧ c.toNat < 127 ∧ c ≠ '"' ∧ c ≠ '\\'

instance (c : Char) : Decidable (jsonPlain c) :=
  inferInstanceAs (Decidable (32 ≤ c.toNat ∧ c.toNat < 127 ∧ c ≠ '"' ∧ c ≠ '\\'))

namespace Patsnap

/-- The `PatsnapAPIClient` instance fields `_token` and `_token_expire`
(`src/tools/patsnap/patsnap_client.py`, lines 62-63). -/
structure TokenState where
  _token : Option String
  _token_expire : Option ℚ
deriving DecidableEq

/-- Outcome of the token-exchange HTTP POST in `get_bearer_token`:
either a non-2xx status (so `raise_for_status` raises) or a decoded JSON body
with its `status` flag, `data.token` field, and its Python rendering. -/
inductive TokenHttpResult where
  | ok (status : Bool) (token : String) (rendered : String)
  | httpFailure (code : Nat) (msg : String)
deriving DecidableEq

/-- `PatsnapAPIClient.get_bearer_token` (patsnap_client.py, lines 71-91).
Returns the token and the updated instance state. -/
def get_bearer_token (api_key api_secret : Option String) (http : TokenHttpResult)
    (now : ℚ) (_st : TokenState) : Except PyErr (String × TokenState) :=
  if strFalsy api_key && strFalsy api_secret then
    .error (.exc "PATSNAP_API_KEY and PATSNAP_API_SECRET are required, please set them in the environment variables or pass them as arguments.")
  else
    match http with
    | .httpFailure code msg => .error (.httpError code msg)
    | .ok status tok rendered =>
      if status then
        .ok (tok, ⟨some tok, some (now + 1500)⟩)
      else
        .error (.exc ("get_bearer_token Error: " ++ rendered))

/-- The condition of the `token` property (patsnap_client.py, line 96):
`not self._token or (self._token_expire and self._token_expire < time.time())`. -/
def tokenNeedsRefresh (st : TokenState) (now : ℚ) : Bool :=
  strFalsy st._token || (timeTruthy st._token_expire && decide (st._token_expire.getD 0 < now))

/-- The `token` property (patsnap_client.py, lines 93-98).  The third component
counts the token-refresh (`get_bearer_token`) calls performed: 1 or 0. -/
def token (api_key api_secret : Option String) (http : TokenHttpResult)
    (now : ℚ) (st : TokenState) : Except PyErr (String × TokenState × Nat) :=
  if tokenNeedsRefresh st now then
    match get_bearer_token api_key api_secret http now st with
    | .ok (tok, st2) => .ok (tok, st2, 1)
    | .error e => .error e
  else
    .ok (st._token.getD "", st, 0)

/-- Outcome of the search HTTP POST in `patent_search` past the token fetch:
a non-2xx status, or a decoded body with `error_code`, `error_msg`,
and `data.results`. -/
inductive SearchHttpOutcome where
  | transportFailure (code : Nat) (msg : String)
  | body (error_code : Nat) (error_msg : String) (results : List Record)

/-- `PatsnapAPIClient.patent_search` (patsnap_client.py, lines 100-169):
fetches `self.token`, posts the query, `raise_for_status`, then checks
`error_code` and returns `data.results`. -/
def patent_search (api_key api_secret : Option String) (tokenHttp : TokenHttpResult)
    (now : ℚ) (st : TokenState) (searchHttp : SearchHttpOutcome) :
    Except PyErr (List Record) :=
  match token api_key api_secret tokenHttp now st with
  | .error e => .error e
  | .ok _ =>
    match searchHttp with
    | .transportFailure code msg => .error (.httpError code msg)
    | .body error_code error_msg results =>
      if error_code ≠ 0 then .error (.exc error_msg) else .ok results

/-- `PatsnapAPIWrapper.lazy_load` (patsnap_api_wrapper.py, lines 46-71), fully
materialised as by `load`.  A failure of `patent_search` is caught, logged and
the generator returns, yielding nothing; each surviving patent is enriched by
`get_patent_content` (modelled by `details`) and merged via `patent.update`. -/
def lazy_load (searchRes : Except PyErr (List Record))
    (details : Record → Except PyErr Record) : Except PyErr (List Record) :=
  match searchRes with
  | .error _ => .ok []
  | .ok patents => patents.mapM (fun p => (details p).map (fun d => p.update d))

/-- `PatsnapAPIWrapper._format_patent` (patsnap_api_wrapper.py, lines 73-88).
`patent['title']` and `patent['inventor']` are strict lookups; the trailing
loop prints every key outside the (literally spelled) exclusion list. -/
def _format_patent (patent : Record) : Except PyErr String := do
  let title ← patent.item "title"
  let inventor ← patent.item "inventor"
  let base :=
    "Patent ID: " ++ patent.getRendered "patent_id" ++ "\n" ++
    "Patent Number: " ++ patent.getRendered "pn" ++ "\n" ++
    "Title: " ++ title ++ "\n" ++
    "Inventor: " ++ inventor ++ "\n" ++
    "Current Assignee: " ++ ((patent.lookupKey "current_assignee").getD "N/A") ++ "\n" ++
    "Abstract: " ++ ((patent.lookupKey "abstract").getD "N/A") ++ "\n"
  let extras := patent.filter
    (fun kv => !(["patent_id", "pn", "title", "inventor", "current_assignee", "Abstract"].contains kv.1))
  pure (base ++ String.join (extras.map
    (fun kv => (kv.1.replace "_" " ").toUpper ++ ": " ++ kv.2 ++ "\n")))

/-- The join-truncate-or-sentinel step of `PatsnapAPIWrapper.run`
(patsnap_api_wrapper.py, lines 35-39). -/
def format_step (doc_content_chars_max : Nat) (docs : List String) : String :=
  if !docs.isEmpty then
    pyTruncate (String.intercalate "\n\n" docs) doc_content_chars_max
  else
    "No good Patent Result was found"

/-- `PatsnapAPIWrapper.run` (patsnap_api_wrapper.py, lines 29-41), over the
outcome of `load`.  Any exception from loading or formatting is caught and
converted to an error string. -/
def run (doc_content_chars_max : Nat) (loadRes : Except PyErr (List Record)) : String :=
  match loadRes.bind (fun patents => patents.mapM _format_patent) with
  | .ok docs => format_step doc_content_chars_max docs
  | .error e => "Patsnap exception: " ++ e.str ++ "."

/-- The whole Patsnap pipeline: `run` over `lazy_load` over `patent_search`. -/
def run_full (doc_content_chars_max : Nat) (api_key api_secret : Option String)
    (tokenHttp : TokenHttpResult) (now : ℚ) (st : TokenState)
    (searchHttp : SearchHttpOutcome) (details : Record → Except PyErr Record) : String :=
  run doc_content_chars_max
    (lazy_load (patent_search api_key api_secret tokenHttp now st searchHttp) details)

end Patsnap

namespace SemScholar

/-- Outcome of one iteration body of the retry loop in
`SemanticScholarAPIWrapper.lazy_load` (semantic_scholar_api_wrapper.py,
lines 85-131): the HTTP request plus JSON decoding and record building
either succeeds with the built records, raises `urllib.error.HTTPError`,
or raises some other exception. -/
inductive Attempt (α : Type) where
  | success (v : α)
  | httpError (code : Nat) (msg : String)
  | failure (msg : String)
deriving DecidableEq

/-- Observable behaviour of one `lazy_load` call: its result, the sleep
durations performed in order, the value of the instance field
`self.sleep_time` afterwards, and how many attempts were made. -/
structure RetryOutcome (α : Type) where
  result : Except PyErr α
  sleeps : List ℚ
  finalSleep : ℚ
  attemptsMade : Nat
deriving DecidableEq

/-- The `while retry < self.max_retry` loop of `lazy_load`
(semantic_scholar_api_wrapper.py, lines 83-150).  `fuel` is the loop-meter
`max_retry - retry`, so `fuel = 0` is exactly the guard failing, which runs
the final `raise Exception("Failed to retrieve ...")` at line 150.  On a 429
with `retry < max_retry - 1` the loop sleeps `sleep_time`, doubles the
instance field `self.sleep_time`, and retries; every other failure re-raises. -/
def retryLoop {α : Type} (attempts : Nat → Attempt α) (max_retry : Nat) :
    Nat → Nat → ℚ → List ℚ → Nat → RetryOutcome α
  | _retry, 0, sleep_time, sleeps, made =>
    ⟨.error (.exc ("Failed to retrieve Semantic Scholar results after "
        ++ toString max_retry ++ " retries.")), sleeps, sleep_time, made⟩
  | retry, fuel + 1, sleep_time, sleeps, made =>
    match attempts retry with
    | .success v => ⟨.ok v, sleeps, sleep_time, made + 1⟩
    | .httpError code msg =>
      if code = 429 ∧ retry < max_retry - 1 then
        retryLoop attempts max_retry (retry + 1) fuel (sleep_time * 2)
          (sleeps ++ [sleep_time]) (made + 1)
      else
        ⟨.error (.httpError code msg), sleeps, sleep_time, made + 1⟩
    | .failure msg => ⟨.error (.exc msg), sleeps, sleep_time, made + 1⟩

/-- `SemanticScholarAPIWrapper.lazy_load`, materialised as by `load`:
the retry loop entered with `retry = 0` and the instance's current
`sleep_time`. -/
def lazy_load {α : Type} (max_retry : Nat) (sleep_time : ℚ)
    (attempts : Nat → Attempt α) : RetryOutcome α :=
  retryLoop attempts max_retry 0 max_retry sleep_time [] 0

/-- The per-result f-string of `SemanticScholarAPIWrapper.run`
(semantic_scholar_api_wrapper.py, lines 51-56). -/
def format_doc (result : Record) : String :=
  "Title: " ++ ((result.lookupKey "title").getD "No Title") ++ "\n" ++
  "URL: " ++ ((result.lookupKey "url").getD "No URL") ++ "\n" ++
  "Content:\n" ++ ((result.lookupKey "content").getD "No content available")

/-- The join-truncate-or-sentinel step of `SemanticScholarAPIWrapper.run`
(semantic_scholar_api_wrapper.py, lines 58-63). -/
def format_step (doc_content_chars_max : Nat) (docs : List String) : String :=
  if !docs.isEmpty then
    pyTruncate (String.intercalate "\n\n---\n\n" docs) doc_content_chars_max
  else
    "No academic papers found matching your search criteria."

/-- `SemanticScholarAPIWrapper.run` (semantic_scholar_api_wrapper.py,
lines 45-65), over the outcome of `load`. -/
def run (doc_content_chars_max : Nat) (loadRes : Except PyErr (List Record)) : String :=
  match loadRes with
  | .ok results => format_step doc_content_chars_max (results.map format_doc)
  | .error e => "Semantic Scholar exception: " ++ e.str

/-- One full `run` invocation: `lazy_load` under the current `sleep_time`,
then the formatting boundary; also exposes the loop's observable state. -/
def run_full (doc_content_chars_max max_retry : Nat) (sleep_time : ℚ)
    (attempts : Nat → Attempt (List Record)) : String × RetryOutcome (List Record) :=
  let o := lazy_load max_retry sleep_time attempts
  (run doc_content_chars_max o.result, o)

/-- Two successive `run` invocations on the same wrapper instance: the second
starts from the `self.sleep_time` the first left behind. -/
def run_twice (doc_content_chars_max max_retry : Nat) (sleep_time : ℚ)
    (att1 att2 : Nat → Attempt (List Record)) :
    (String × RetryOutcome (List Record)) × (String × RetryOutcome (List Record)) :=
  let r1 := run_full doc_content_chars_max max_retry sleep_time att1
  let r2 := run_full doc_content_chars_max max_retry r1.2.finalSleep att2
  (r1, r2)

end SemScholar

namespace PatentsView

/-- One patent dict as handed to `_parse_patent_data` by
`PatentsViewAPIClient.search_patents` / `_format_results`; `none` is an
absent key. -/
structure PVRecord where
  patent_id : Option String := none
  patent_title : Option String := none
  patent_abstract : Option String := none
  patent_date : Option String := none
  assignees : Option (List String) := none
  inventors : Option (List String) := none
  g_claims : Option String := none
deriving DecidableEq

/-- `PatentsViewAPIWrapper._parse_patent_data`
(patents_view_api_wrapper.py, lines 30-65).  Every access is a `.get` with a
default; empty lists and the empty claims string fall back to `"N/A"`; the
claims text alone is pre-truncated to `claims_content_chars_max`. -/
def _parse_patent_data (claims_content_chars_max : Nat) (patent_data : PVRecord) : String :=
  let patent_id := patent_data.patent_id.getD "N/A"
  let title := patent_data.patent_title.getD "N/A"
  let abstract := patent_data.patent_abstract.getD "N/A"
  let patent_date := patent_data.patent_date.getD "N/A"
  let assignees := patent_data.assignees.getD []
  let assignees_str := if !assignees.isEmpty then String.intercalate ", " assignees else "N/A"
  let inventors := patent_data.inventors.getD []
  let inventors_str := if !inventors.isEmpty then String.intercalate ", " inventors else "N/A"
  let claims_content := patent_data.g_claims.getD ""
  let claims_display_str := if !claims_content.isEmpty then claims_content else "N/A"
  let claims_display_str :=
    if claims_display_str.length > claims_content_chars_max then
      pyTruncate claims_display_str claims_content_chars_max
    else claims_display_str
  String.intercalate "\n"
    ["Patent ID: " ++ patent_id,
     "Title: " ++ title,
     "Abstract: " ++ abstract,
     "Publication Date: " ++ patent_date,
     "Assignees: " ++ assignees_str,
     "Inventors: " ++ inventors_str,
     "Claims:", claims_display_str]

/-- The join-truncate-or-sentinel step of `PatentsViewAPIWrapper.run`
(patents_view_api_wrapper.py, lines 105-109). -/
def format_step (doc_content_chars_max : Nat) (results : List String) : String :=
  if !results.isEmpty then
    pyTruncate (String.intercalate "\n\n" results) doc_content_chars_max
  else
    "No good Patent Result was found"

/-- `PatentsViewAPIWrapper.run` (patents_view_api_wrapper.py, lines 67-113),
over the outcome of `client.search_patents`.  Any exception is caught and
returned as `json.dumps([{"error": str(e)}])`. -/
def run (doc_content_chars_max claims_content_chars_max : Nat)
    (searchRes : Except PyErr (List PVRecord)) : String :=
  match searchRes with
  | .ok patents_data =>
    format_step doc_content_chars_max
      (patents_data.map (_parse_patent_data claims_content_chars_max))
  | .error e => "[\x7b\"error\": \"" ++ jsonEscape e.str ++ "\"\x7d]"

end PatentsView

/-- `crawl_tool` (crawl.py, lines 17-30), over the outcome of
`Crawler().crawl(url).to_markdown()`.  Python parses line 25 as
`("URL: " + url + "\n\n" + article[:max_length]) if len(article) > max_length
else article`. -/
def crawl_tool (url : String) (max_length : Nat) (crawlRes : Except PyErr String) : String :=
  match crawlRes with
  | .ok article =>
    if article.length > max_length then
      "URL: " ++ url ++ "\n\n" ++ pyTruncate article max_length
    else
      article
  | .error e => "Failed to crawl. Error: " ++ e.reprStr

/-! Helper lemmas. -/

lemma data_append (a b : String) : (a ++ b).data = a.data ++ b.data := rfl

lemma str_length_append (a b : String) : (a ++ b).length = a.length + b.length := by
  show (a ++ b).data.length = a.data.length + b.data.length
  rw [data_append, List.length_append]

lemma length_pyTruncate (s : String) (n : Nat) : (pyTruncate s n).length = min n s.length := by
  show (s.data.take n).length = min n s.data.length
  exact List.length_take n s.data

lemma length_pyTruncate_le (s : String) (n : Nat) : (pyTruncate s n).length ≤ n := by
  rw [length_pyTruncate]; exact Nat.min_le_left _ _

lemma substrOf_middle (a b c : String) : substrOf b (a ++ b ++ c) :=
  ⟨a.data, c.data, by rw [data_append, data_append]⟩

lemma substrOf_append_left (a b : String) : substrOf b (a ++ b) :=
  ⟨a.data, [], by rw [List.append_nil, data_append]⟩

lemma jsonEscapeChar_plain {c : Char} (h : jsonPlain c) : jsonEscapeChar c = String.singleton c := by
  obtain ⟨h32, h127, hq, hb⟩ := h
  have hn : c ≠ '\n' := by rintro rfl; exact absurd h32 (by decide)
  have hr : c ≠ '\r' := by rintro rfl; exact absurd h32 (by decide)
  have ht : c ≠ '\t' := by rintro rfl; exact absurd h32 (by decide)
  have h8 : c ≠ '\x08' := by rintro rfl; exact absurd h32 (by decide)
  have hc : c ≠ '\x0c' := by rintro rfl; exact absurd h32 (by decide)
  simp [jsonEscapeChar, hq, hb, hn, hr, ht, h8, hc, Nat.not_lt.mpr h32, h127]

lemma flatMap_escape_plain : ∀ (l : List Char), (∀ c ∈ l, jsonPlain c) →
    l.flatMap (fun c => (jsonEscapeChar c).data) = l
  | [], _ => rfl
  | a :: l, h => by
    rw [List.flatMap_cons, jsonEscapeChar_plain (h a (List.mem_cons_self a l)),
      flatMap_escape_plain l (fun c hc => h c (List.mem_cons_of_mem a hc))]
    rfl

lemma jsonEscape_plain {s : String} (h : ∀ c ∈ s.data, jsonPlain c) : jsonEscape s = s := by
  show String.mk (s.data.flatMap (fun c => (jsonEscapeChar c).data)) = s
  rw [flatMap_escape_plain s.data h]

lemma retryLoop_const429 (α : Type) (m : String) (mr : Nat) :
    ∀ (fuel retry : Nat) (s : ℚ) (sleeps : List ℚ) (made : Nat),
      1 ≤ fuel → retry + fuel = mr →
      SemScholar.retryLoop ((fun _ => .httpError 429 m) : Nat → SemScholar.Attempt α)
          mr retry fuel s sleeps made
        = ⟨.error (.httpError 429 m),
           sleeps ++ (List.range (fuel - 1)).map (fun i => s * 2 ^ i),
           s * 2 ^ (fuel - 1), made + fuel⟩ := by
  intro fuel
  induction fuel with
  | zero => intro retry s sleeps made h; exact absurd h (by decide)
  | succ n ih =>
    intro retry s sleeps made _ hinv
    cases n with
    | zero =>
      have hc : ¬ (429 = 429 ∧ retry < mr - 1) := by omega
      rw [SemScholar.retryLoop.eq_2]
      dsimp only
      rw [if_neg hc]
      simp
    | succ k =>
      have hc : (429 = 429 ∧ retry < mr - 1) := ⟨rfl, by omega⟩
      rw [SemScholar.retryLoop.eq_2]
      dsimp only
      rw [if_pos hc,
        ih (retry + 1) (s * 2) (sleeps ++ [s]) (made + 1) (by omega) (by omega)]
      simp only [SemScholar.RetryOutcome.mk.injEq, Nat.succ_sub_one]
      refine ⟨trivial, ?_, ?_, by omega⟩
      · rw [List.append_assoc]
        congr 1
        rw [List.range_succ_eq_map, List.map_cons, List.map_map, List.singleton_append]
        congr 1
        · rw [pow_zero, mul_one]
        · refine List.map_congr_left ?_
          intro i _
          simp [Function.comp, pow_succ]
          ring
      · rw [pow_succ]
        ring

lemma lazy_load_429_once (mr : Nat) (s0 : ℚ) (msg : String) (v : List Record)
    (h : 2 ≤ mr) :
    SemScholar.lazy_load mr s0
        ((fun n => if n = 0 then .httpError 429 msg else .success v) :
          Nat → SemScholar.Attempt (List Record))
      = ⟨.ok v, [s0], s0 * 2, 2⟩ := by
  obtain ⟨n, rfl⟩ : ∃ n, mr = n + 2 := ⟨mr - 2, by omega⟩
  have hc : ((429 : Nat) = 429 ∧ 0 < (n + 2) - 1) := ⟨rfl, by omega⟩
  simp [SemScholar.lazy_load, SemScholar.retryLoop, hc]

/-! Claim theorems. -/

/-- C4, counterexample: with zero records the Patsnap formatting step returns
the literal string used by the code, which is not the claimed fixed sentinel
string of the spec. -/
theorem c4_counterexample :
    Patsnap.format_step 4000 [] = "No good Patent Result was found" ∧
    Patsnap.format_step 4000 [] ≠ "No good result was found" :=
  ⟨rfl, by decide⟩

/-- C4 (amended): with zero records each formatting step returns its own
tool-specific fixed literal, not one shared sentinel: Patsnap and PatentsView
return the string written in their code, and Semantic Scholar returns its own
message. -/
theorem c4_empty_sentinels : ∀ m : Nat,
    Patsnap.format_step m [] = "No good Patent Result was found" ∧
    SemScholar.format_step m [] = "No academic papers found matching your search criteria." ∧
    PatentsView.format_step m [] = "No good Patent Result was found" :=
  fun _ => ⟨rfl, rfl, rfl⟩

/-- C2, counterexample: with zero records and a configured maximum of 5
characters, `run` returns the 31-character no-result sentinel, exceeding the
budget, so the output is not always at most `doc_content_chars_max`. -/
theorem c2_counterexample : ¬ (Patsnap.run 5 (Except.ok [])).length ≤ 5 := by decide

/-- C2 (amended): for every nonempty list of formatted record blocks, the
joined and truncated output of each tool's formatting step has length at most
the configured `doc_content_chars_max`; with zero records the fixed sentinel
is returned instead, whose length can exceed the budget. -/
theorem c2_format_truncates : ∀ (m : Nat) (docs : List String), docs ≠ [] →
    (Patsnap.format_step m docs).length ≤ m ∧
    (SemScholar.format_step m docs).length ≤ m ∧
    (PatentsView.format_step m docs).length ≤ m := by
  intro m docs h
  match docs with
  | d :: rest =>
    exact ⟨length_pyTruncate_le _ _, length_pyTruncate_le _ _, length_pyTruncate_le _ _⟩

/-- C2, witness. -/
theorem c2_format_truncates_witness :
    (Patsnap.format_step 5 ["docA"]).length ≤ 5 ∧
    (SemScholar.format_step 5 ["docA"]).length ≤ 5 ∧
    (PatentsView.format_step 5 ["docA"]).length ≤ 5 :=
  c2_format_truncates 5 ["docA"] (by decide)

/-- C10: when the crawled article fits in `max_length`, `crawl_tool` returns
the article alone without the URL prefix; when it is strictly longer, the
result is the prefix `"URL: " ++ url ++ "\n\n"` followed by the first
`max_length` characters, so the result's length exceeds `max_length` by
exactly the length of that prefix. -/
theorem c10_crawl_truncation : ∀ (url : String) (max_length : Nat) (article : String),
    (article.length ≤ max_length → crawl_tool url max_length (.ok article) = article) ∧
    (max_length < article.length →
      crawl_tool url max_length (.ok article)
        = "URL: " ++ url ++ "\n\n" ++ pyTruncate article max_length ∧
      (crawl_tool url max_length (.ok article)).length
        = ("URL: " ++ url ++ "\n\n").length + max_length) := by
  intro url ml article
  constructor
  · intro h
    have hn : ¬ ml < article.length := Nat.not_lt.mpr h
    simp [crawl_tool, hn]
  · intro h
    have heq : crawl_tool url ml (.ok article)
        = "URL: " ++ url ++ "\n\n" ++ pyTruncate article ml := by
      simp [crawl_tool, h]
    refine ⟨heq, ?_⟩
    rw [heq, str_length_append, length_pyTruncate, Nat.min_eq_left (Nat.le_of_lt h)]

/-- C10, witness. -/
theorem c10_crawl_truncation_witness :
    (crawl_tool "a" 5 (.ok "xyz") = "xyz") ∧
    (crawl_tool "a" 1 (.ok "xyz") = "URL: " ++ "a" ++ "\n\n" ++ pyTruncate "xyz" 1 ∧
      (crawl_tool "a" 1 (.ok "xyz")).length = ("URL: " ++ "a" ++ "\n\n").length + 1) :=
  ⟨(c10_crawl_truncation "a" 5 "xyz").1 (by decide),
   (c10_crawl_truncation "a" 1 "xyz").2 (by decide)⟩

/-- C9, counterexample: a record lacking the optional `title` field makes
Patsnap's `_format_patent` fail with a `KeyError`, instead of rendering
`"N/A"`. -/
theorem c9_counterexample :
    Patsnap._format_patent [("patent_id", "X")] = .error (.keyError "title") := by
  decide

/-- C9 (amended): PatentsView's `_parse_patent_data` is total and renders
`"N/A"` for every missing field; Patsnap's `_format_patent` renders defaults
for the fields accessed with `.get` but performs strict `KeyError`-raising
lookups of `title` and `inventor`, and only succeeds when both are present. -/
theorem c9_missing_fields : ∀ (patent : Record),
    (patent.lookupKey "title" = none →
      Patsnap._format_patent patent = .error (.keyError "title")) ∧
    (∀ t, patent.lookupKey "title" = some t → patent.lookupKey "inventor" = none →
      Patsnap._format_patent patent = .error (.keyError "inventor")) ∧
    (∀ t i, patent.lookupKey "title" = some t → patent.lookupKey "inventor" = some i →
      ∃ s, Patsnap._format_patent patent = .ok s) ∧
    (PatentsView._parse_patent_data 1000 {} =
      "Patent ID: N/A\nTitle: N/A\nAbstract: N/A\nPublication Date: N/A\nAssignees: N/A\nInventors: N/A\nClaims:\nN/A") := by
  intro patent
  refine ⟨?_, ?_, ?_, by decide⟩
  · intro h
    simp [Patsnap._format_patent, Record.item, h]
    rfl
  · intro t ht hi
    simp [Patsnap._format_patent, Record.item, ht, hi]
    rfl
  · intro t i ht hi
    simp only [Patsnap._format_patent, Record.item, ht, hi]
    exact ⟨_, rfl⟩

/-- C9, witness. -/
theorem c9_missing_fields_witness :
    Patsnap._format_patent [("pn", "Y")] = .error (.keyError "title") :=
  (c9_missing_fields [("pn", "Y")]).1 rfl

/-- C3, counterexample: when the token-exchange HTTP call fails with a 401 on
a fresh client, `run()` returns the no-result sentinel, which does not contain
the substring "exception" (nor any error marker). -/
theorem c3_counterexample :
    Patsnap.run_full 4000 (some "k") (some "s")
        (.httpFailure 401 "401 Client Error: Unauthorized") 0 ⟨none, none⟩
        (.body 0 "" []) (fun p => .ok p)
      = "No good Patent Result was found" ∧
    ¬ substrOf "exception"
      (Patsnap.run_full 4000 (some "k") (some "s")
        (.httpFailure 401 "401 Client Error: Unauthorized") 0 ⟨none, none⟩
        (.body 0 "" []) (fun p => .ok p)) :=
  ⟨rfl, by decide⟩

/-- C3 (amended): a 401 failure of the token exchange is raised out of
`patent_search` but caught inside `lazy_load`, which logs it and yields no
results, so `run()` raises nothing and returns the no-result sentinel
"No good Patent Result was found" rather than an error-marker string. -/
theorem c3_token_failure_sentinel : ∀ (m : Nat) (api_key api_secret : Option String)
    (msg : String) (now : ℚ) (searchHttp : Patsnap.SearchHttpOutcome)
    (details : Record → Except PyErr Record),
    Patsnap.run_full m api_key api_secret (.httpFailure 401 msg) now ⟨none, none⟩
      searchHttp details = "No good Patent Result was found" := by
  intro m k s msg now sh details
  unfold Patsnap.run_full Patsnap.run Patsnap.lazy_load Patsnap.patent_search
    Patsnap.token Patsnap.get_bearer_token
  by_cases hk : (strFalsy k && strFalsy s) = true
  · rw [if_pos hk]; rfl
  · rw [if_neg hk]; rfl

/-- C7, counterexample: with a cached token and `expires_at = 100`, a request
at `now = 100` (so `now ≥ expires_at`, expired per the claim) performs zero
refresh calls and returns the cached token, not a freshly refreshed one:
the code only refreshes when `expires_at < now` strictly. -/
theorem c7_counterexample :
    Patsnap.token (some "k") (some "s") (.ok true "newtok" "resp") 100
        ⟨some "cached", some 100⟩
      = .ok ("cached", ⟨some "cached", some 100⟩, 0) ∧
    (Except.ok ("cached", (⟨some "cached", some 100⟩ : Patsnap.TokenState), 0)
        : Except PyErr (String × Patsnap.TokenState × Nat))
      ≠ .ok ("newtok", ⟨some "newtok", some 1600⟩, 1) ∧
    (100 : ℚ) ≥ 100 :=
  ⟨by decide, by decide, le_refl _⟩

/-- C7 (amended): the `token` property performs zero refresh calls and returns
the cached token whenever the cached token is non-empty and the stored expiry
is not strictly earlier than `now` (including `now = expires_at`); it performs
exactly one refresh call — returning the fresh token and caching it with
expiry `now + 1500` — when the cached token is absent/empty or the stored
(nonzero) expiry is strictly earlier than `now`. -/
theorem c7_token_caching : ∀ (api_key api_secret : Option String) (tok rendered : String)
    (now : ℚ) (st : Patsnap.TokenState),
    (strFalsy st._token = false →
      (timeTruthy st._token_expire = false ∨ ¬ st._token_expire.getD 0 < now) →
      Patsnap.token api_key api_secret (.ok true tok rendered) now st
        = .ok (st._token.getD "", st, 0)) ∧
    (strFalsy api_key = false →
      (strFalsy st._token = true ∨
        (timeTruthy st._token_expire = true ∧ st._token_expire.getD 0 < now)) →
      Patsnap.token api_key api_secret (.ok true tok rendered) now st
        = .ok (tok, ⟨some tok, some (now + 1500)⟩, 1)) := by
  intro k s tok rendered now st
  constructor
  · intro h1 h2
    have hcond : Patsnap.tokenNeedsRefresh st now = false := by
      rcases h2 with h2 | h2 <;>
        simp [Patsnap.tokenNeedsRefresh, h1, h2]
    simp [Patsnap.token, hcond]
  · intro hk h2
    have hcond : Patsnap.tokenNeedsRefresh st now = true := by
      rcases h2 with h2 | ⟨h2, h3⟩
      · simp [Patsnap.tokenNeedsRefresh, h2]
      · simp [Patsnap.tokenNeedsRefresh, h2, h3]
    simp [Patsnap.token, hcond, Patsnap.get_bearer_token, hk]

/-- C7, witness. -/
theorem c7_token_caching_witness :
    Patsnap.token (some "k") (some "s") (.ok true "newtok" "r") 50
        ⟨some "cached", some 100⟩
      = .ok ("cached", ⟨some "cached", some 100⟩, 0) ∧
    Patsnap.token (some "k") (some "s") (.ok true "newtok" "r") 200
        ⟨some "cached", some 100⟩
      = .ok ("newtok", ⟨some "newtok", some (200 + 1500)⟩, 1) :=
  ⟨(c7_token_caching (some "k") (some "s") "newtok" "r" 50
      ⟨some "cached", some 100⟩).1 (by decide) (Or.inr (by decide)),
   (c7_token_caching (some "k") (some "s") "newtok" "r" 200
      ⟨some "cached", some 100⟩).2 (by decide) (Or.inr ⟨by decide, by decide⟩)⟩

/-- C1, counterexample: a transport failure of the search HTTP call (after a
successful token fetch) is not converted into an error string embedding the
failure's message: `lazy_load` swallows it and `run` returns the no-result
sentinel. -/
theorem c1_counterexample :
    Patsnap.run_full 4000 (some "k") (some "s") (.ok true "tok" "r") 0 ⟨none, none⟩
        (.transportFailure 500 "500 Server Error: Internal Server Error")
        (fun p => .ok p)
      = "No good Patent Result was found" ∧
    ¬ substrOf "500 Server Error"
      (Patsnap.run_full 4000 (some "k") (some "s") (.ok true "tok" "r") 0 ⟨none, none⟩
        (.transportFailure 500 "500 Server Error: Internal Server Error")
        (fun p => .ok p)) :=
  ⟨rfl, by decide⟩

/-- C1 (amended): every `run(query)` entry point is total and returns a
string.  A failure reaching the `run` boundary is converted into a
descriptive error string embedding the original failure's message (Patsnap:
"Patsnap exception: ...",  Semantic Scholar: "Semantic Scholar exception:
...", PatentsView: `json.dumps([{"error": ...}])`, embedding the message
whenever it needs no JSON escaping).  However, failures of Patsnap's initial
`patent_search` phase (token refresh, search transport, decode) are caught
inside `lazy_load` and degraded to zero results, so for them `run` returns
the no-result sentinel without the failure's message. -/
theorem c1_run_boundary : ∀ (m cm : Nat) (e : PyErr) (details : Record → Except PyErr Record),
    (Patsnap.run m (.error e) = "Patsnap exception: " ++ e.str ++ "." ∧
      substrOf e.str (Patsnap.run m (.error e))) ∧
    (SemScholar.run m (.error e) = "Semantic Scholar exception: " ++ e.str ∧
      substrOf e.str (SemScholar.run m (.error e))) ∧
    (PatentsView.run m cm (.error e) = "[\x7b\"error\": \"" ++ jsonEscape e.str ++ "\"\x7d]" ∧
      ((∀ c ∈ e.str.data, jsonPlain c) →
        substrOf e.str (PatentsView.run m cm (.error e)))) ∧
    (Patsnap.run m (Patsnap.lazy_load (.error e) details)
      = "No good Patent Result was found") := by
  intro m cm e details
  refine ⟨⟨rfl, ?_⟩, ⟨rfl, ?_⟩, ⟨rfl, ?_⟩, rfl⟩
  · exact substrOf_middle "Patsnap exception: " e.str "."
  · exact substrOf_append_left "Semantic Scholar exception: " e.str
  · intro h
    show substrOf e.str ("[\x7b\"error\": \"" ++ jsonEscape e.str ++ "\"\x7d]")
    rw [jsonEscape_plain h]
    exact substrOf_middle "[\x7b\"error\": \"" e.str "\"\x7d]"

/-- C1, witness. -/
theorem c1_run_boundary_witness :
    substrOf (PyErr.exc "boom").str (PatentsView.run 7 9 (.error (.exc "boom"))) :=
  ((c1_run_boundary 7 9 (.exc "boom") (fun p => .ok p)).2.2.1.2) (by decide)

/-- C6: a first-attempt failure that is not a 429 rate-limit signal —
another HTTP status or any other exception — is re-raised immediately: no
sleep is performed and no further attempt is made. -/
theorem c6_non_rate_limit_immediate : ∀ (α : Type) (max_retry : Nat) (s0 : ℚ)
    (attempts : Nat → SemScholar.Attempt α) (code : Nat) (msg : String),
    1 ≤ max_retry →
    (attempts 0 = .httpError code msg → code ≠ 429 →
      SemScholar.lazy_load max_retry s0 attempts
        = ⟨.error (.httpError code msg), [], s0, 1⟩) ∧
    (attempts 0 = .failure msg →
      SemScholar.lazy_load max_retry s0 attempts = ⟨.error (.exc msg), [], s0, 1⟩) := by
  intro α mr s0 att code msg h
  obtain ⟨n, rfl⟩ : ∃ n, mr = n + 1 := ⟨mr - 1, by omega⟩
  constructor
  · intro ha hc
    have hcond : ¬ (code = 429 ∧ 0 < (n + 1) - 1) := fun hh => hc hh.1
    rw [SemScholar.lazy_load, SemScholar.retryLoop.eq_2, ha]
    dsimp only
    rw [if_neg hcond]
  · intro ha
    rw [SemScholar.lazy_load, SemScholar.retryLoop.eq_2, ha]

/-- C6, witness. -/
theorem c6_non_rate_limit_immediate_witness :
    SemScholar.lazy_load 3 1
        ((fun _ => .httpError 500 "Internal Server Error") :
          Nat → SemScholar.Attempt (List Record))
      = ⟨.error (.httpError 500 "Internal Server Error"), [], 1, 1⟩ :=
  (c6_non_rate_limit_immediate (List Record) 3 1
    (fun _ => .httpError 500 "Internal Server Error") 500 "Internal Server Error"
    (by decide)).1 rfl (by decide)

/-- C5, counterexample: with `max_retry = 3` and every attempt failing with a
429, the loop makes 3 attempts and re-raises the underlying 429 HTTP error —
not the terminal "Failed to retrieve ... after 3 retries." exception the
claim requires. -/
theorem c5_counterexample :
    (SemScholar.lazy_load 3 1
        ((fun _ => .httpError 429 "Too Many Requests") :
          Nat → SemScholar.Attempt (List Record))).result
      = .error (.httpError 429 "Too Many Requests") ∧
    (SemScholar.lazy_load 3 1
        ((fun _ => .httpError 429 "Too Many Requests") :
          Nat → SemScholar.Attempt (List Record))).attemptsMade = 3 ∧
    (Except.error (PyErr.httpError 429 "Too Many Requests") : Except PyErr (List Record))
      ≠ .error (.exc "Failed to retrieve Semantic Scholar results after 3 retries.") :=
  ⟨by decide, by decide, by decide⟩

/-- C5 (amended): when every attempt fails rate-limited and `max_retry ≥ 1`,
the loop makes exactly `max_retry` attempts, sleeps `max_retry - 1` times
with doubling backoff, and re-raises the underlying 429 error itself; the
terminal "Failed to retrieve ..." exception is raised only in the vacuous
`max_retry = 0` case, where the loop body never runs. -/
theorem c5_retry_exhaustion : ∀ (max_retry : Nat) (s0 : ℚ) (msg : String),
    1 ≤ max_retry →
    SemScholar.lazy_load max_retry s0
        ((fun _ => .httpError 429 msg) : Nat → SemScholar.Attempt (List Record))
      = ⟨.error (.httpError 429 msg),
         (List.range (max_retry - 1)).map (fun i => s0 * 2 ^ i),
         s0 * 2 ^ (max_retry - 1), max_retry⟩ ∧
    SemScholar.lazy_load 0 s0
        ((fun _ => .httpError 429 msg) : Nat → SemScholar.Attempt (List Record))
      = ⟨.error (.exc "Failed to retrieve Semantic Scholar results after 0 retries."),
         [], s0, 0⟩ := by
  intro mr s0 msg h
  constructor
  · have hx := retryLoop_const429 (List Record) msg mr mr 0 s0 [] 0 h (by omega)
    rw [SemScholar.lazy_load, hx]
    simp
  · rfl

/-- C5, witness. -/
theorem c5_retry_exhaustion_witness :
    SemScholar.lazy_load 3 (1 : ℚ)
        ((fun _ => .httpError 429 "TMR") : Nat → SemScholar.Attempt (List Record))
      = ⟨.error (.httpError 429 "TMR"),
         (List.range (3 - 1)).map (fun i => (1 : ℚ) * 2 ^ i),
         (1 : ℚ) * 2 ^ (3 - 1), 3⟩ :=
  (c5_retry_exhaustion 3 1 "TMR" (by decide)).1

/-- C8, counterexample: two successive `run` invocations on the same wrapper
instance, each rate-limited once then succeeding: the first invocation sleeps
1 second, but the second sleeps 2 seconds — the doubled backoff persisted in
the instance field `self.sleep_time` instead of restarting from its initial
value. -/
theorem c8_counterexample :
    (SemScholar.run_twice 2000 3 1
        ((fun n => if n = 0 then .httpError 429 "TMR" else .success []) :
          Nat → SemScholar.Attempt (List Record))
        ((fun n => if n = 0 then .httpError 429 "TMR" else .success []) :
          Nat → SemScholar.Attempt (List Record))).1.2.sleeps = [1] ∧
    (SemScholar.run_twice 2000 3 1
        ((fun n => if n = 0 then .httpError 429 "TMR" else .success []) :
          Nat → SemScholar.Attempt (List Record))
        ((fun n => if n = 0 then .httpError 429 "TMR" else .success []) :
          Nat → SemScholar.Attempt (List Record))).2.2.sleeps = [2] ∧
    ¬ (SemScholar.run_twice 2000 3 1
        ((fun n => if n = 0 then .httpError 429 "TMR" else .success []) :
          Nat → SemScholar.Attempt (List Record))
        ((fun n => if n = 0 then .httpError 429 "TMR" else .success []) :
          Nat → SemScholar.Attempt (List Record))).2.2.sleeps = [1] := by
  have e1 := lazy_load_429_once 3 1 "TMR" [] (by norm_num)
  have e2 := lazy_load_429_once 3 2 "TMR" [] (by norm_num)
  refine ⟨?_, ?_, ?_⟩ <;>
    simp [SemScholar.run_twice, SemScholar.run_full, e1, e2]

/-- C8 (amended): the attempt counter is a local variable and does restart at
0 on every `run` invocation, but the backoff duration is the instance field
`self.sleep_time`: an invocation that backs off once leaves it doubled, and
the next invocation on the same instance starts its retry loop from that
carried-over value, not from the initial one. -/
theorem c8_backoff_carryover : ∀ (m max_retry : Nat) (s0 : ℚ) (v : List Record)
    (att1 att2 : Nat → SemScholar.Attempt (List Record)),
    2 ≤ max_retry →
    att1 = (fun n => if n = 0 then .httpError 429 "Too Many Requests" else .success v) →
    (SemScholar.run_twice m max_retry s0 att1 att2).1.2.sleeps = [s0] ∧
    (SemScholar.run_twice m max_retry s0 att1 att2).1.2.finalSleep = s0 * 2 ∧
    (SemScholar.run_twice m max_retry s0 att1 att2).1.2.attemptsMade = 2 ∧
    (SemScholar.run_twice m max_retry s0 att1 att2).2.2
      = SemScholar.lazy_load max_retry (s0 * 2) att2 := by
  intro m mr s0 v att1 att2 h ha
  subst ha
  have h1 := lazy_load_429_once mr s0 "Too Many Requests" v h
  simp [SemScholar.run_twice, SemScholar.run_full, h1]

/-- C8, witness. -/
theorem c8_backoff_carryover_witness :
    (SemScholar.run_twice 2000 3 1
        (fun n => if n = 0 then .httpError 429 "Too Many Requests"
          else SemScholar.Attempt.success [])
        (fun n => if n = 0 then .httpError 429 "Too Many Requests"
          else SemScholar.Attempt.success [])).1.2.sleeps = [(1 : ℚ)] :=
  (c8_backoff_carryover 2000 3 1 []
    (fun n => if n = 0 then .httpError 429 "Too Many Requests"
      else SemScholar.Attempt.success [])
    (fun n => if n = 0 then .httpError 429 "Too Many Requests"
      else SemScholar.Attempt.success [])
    (by decide) rfl).1
